import Mathlib

/-!
Shallow embedding of the payment / subscription / OTP-auth core of the
dastyare_social_subscription_api repository.

Each definition mirrors one function of the TypeScript source:
  - src/types/enums.ts                                   (status enums)
  - src/server/services/payment/gateways/index.ts        (gateway registry)
  - src/server/services/payment/payment.service.ts       (PaymentService.verifyPayment,
                                                          ZarinpalGateway.verifyPayment)
  - src/server/services/payment/gateways/zibal.gateway.ts (ZibalGateway.verifyPayment)
  - src/server/services/auth/auth.service.ts             (AuthService)
  - src/server/services/subscription/subscription.service.ts
                                                          (activateSubscription, cancelSubscription)

Conventions of the embedding:
  - timestamps are natural numbers of milliseconds (JavaScript Date.now);
  - the Prisma tables are lists of records; findFirst is List.find?, an
    update keyed on id maps over the list;
  - external collaborators (the HTTP call of a gateway adapter, the sha256
    hash of the crypto module, random codes and random api keys) are
    parameters of the functions that use them;
  - a thrown exception is the error branch of an Except; when the source
    mutates the database before throwing, the function returns the error
    together with the mutated state.
-/

set_option maxHeartbeats 1000000

namespace DastyareSub

/-- Single-quote character, used to keep error messages byte-identical to the
source without writing a quote character inside a string literal. -/
def sq : String := String.singleton (Char.ofNat 39)

/-- PaymentStatus enum of src/types/enums.ts. -/
inductive PaymentStatus
  | PENDING
  | COMPLETED
  | FAILED
deriving DecidableEq, Repr

/-- SubscriptionStatus enum of src/types/enums.ts. -/
inductive SubscriptionStatus
  | PENDING
  | ACTIVE
  | EXPIRED
  | CANCELLED
deriving DecidableEq, Repr

/-- Error classes of src/utils/errors.ts as used by the services
(NotFoundError, ValidationError, PaymentGatewayError, and a plain Error
with a message). -/
inductive AppError
  | notFound (entity : String)
  | validation (message : String)
  | paymentGateway (message : String) (code : Option Int)
  | generic (message : String)
deriving DecidableEq, Repr

/-- Result shape a gateway adapter returns from verifyPayment
(VerifyPaymentResponse of src/types/payment.types.ts). refId is optional
because ZarinpalGateway returns data.ref_id?.toString(). -/
structure VerifyPaymentResponse where
  refId : Option String := none
  cardPan : Option String := none
  cardHash : Option String := none
  feeType : Option String := none
  fee : Option Int := none
deriving DecidableEq, Repr

/-! ## Gateway registry — src/server/services/payment/gateways/index.ts -/

/-- The concrete adapters the registry of gateways/index.ts instantiates. -/
inductive GatewayAdapter
  | zarinpal
  | mock
deriving DecidableEq, Repr

/-- The gatewayRegistry object literal of gateways/index.ts: the keys are
zarinpal and mock (the zibal entry of the source is commented out). -/
def gatewayRegistry : List (String × GatewayAdapter) :=
  [("zarinpal", GatewayAdapter.zarinpal), ("mock", GatewayAdapter.mock)]

/-- Object.keys(gatewayRegistry). -/
def registeredGatewayNames : List String := gatewayRegistry.map Prod.fst

/-- Message of the ValidationError thrown by getPaymentGateway. -/
def unsupportedGatewayMessage (gatewayName : String) : String :=
  "Payment gateway " ++ sq ++ gatewayName ++ sq ++
    " is not supported. Available gateways: " ++
    String.intercalate ", " registeredGatewayNames

/-- Model of the JavaScript toLowerCase call of getPaymentGateway (ASCII
case folding, applied character by character). -/
def jsToLower (s : String) : String := String.mk (s.data.map Char.toLower)

/-- getPaymentGateway of gateways/index.ts: case-insensitive lookup in the
registry, ValidationError listing the registered names when absent. -/
def getPaymentGateway (gatewayName : String) : Except AppError GatewayAdapter :=
  match gatewayRegistry.lookup (jsToLower gatewayName) with
  | some g => Except.ok g
  | none => Except.error (AppError.validation (unsupportedGatewayMessage gatewayName))

/-! ## Gateway adapters — response handling of verifyPayment

The HTTP transport is external; what the repository owns is the decision
taken on the parsed provider response. Those decisions are embedded as pure
functions of the response data. -/

/-- JavaScript a || b for an optional string a: the fallback is used when a
is absent or empty (falsy). -/
def jsOrStr (a : Option String) (fallback : String) : String :=
  match a with
  | some s => if s = "" then fallback else s
  | none => fallback

/-- Parsed response.data.data of the Zarinpal verify endpoint
(ZarinpalVerifyResponse of src/types/payment.types.ts). -/
structure ZarinpalVerifyData where
  code : Int
  message : Option String := none
  ref_id : Option Int := none
  card_pan : Option String := none
  card_hash : Option String := none
  fee_type : Option String := none
  fee : Option Int := none
deriving DecidableEq, Repr

/-- Response handling of ZarinpalGateway.verifyPayment
(src/server/services/payment/payment.service.ts, Zarinpal adapter part):
code 100 or 101 is success, anything else raises PaymentGatewayError with
the provider code. -/
def zarinpalVerifyDecision (data : ZarinpalVerifyData) :
    Except AppError VerifyPaymentResponse :=
  if data.code ≠ 100 ∧ data.code ≠ 101 then
    Except.error (AppError.paymentGateway
      (jsOrStr data.message "Payment verification failed") (some data.code))
  else
    Except.ok
      { refId := data.ref_id.map (fun n => toString n)
        cardPan := data.card_pan
        cardHash := data.card_hash
        feeType := data.fee_type
        fee := data.fee }

/-- Parsed response.data of the Zibal verify endpoint. -/
structure ZibalVerifyData where
  result : Int
  message : Option String := none
  refNumber : Option Int := none
  cardNumber : Option String := none
deriving DecidableEq, Repr

/-- String(data.refNumber || ''): an absent or zero refNumber yields the
empty string. -/
def zibalRefId (n : Option Int) : String :=
  match n with
  | some v => if v = 0 then "" else toString v
  | none => ""

/-- Response handling of ZibalGateway.verifyPayment
(src/server/services/payment/gateways/zibal.gateway.ts): only result 100 is
success; every other result raises PaymentGatewayError with the provider
code. -/
def zibalVerifyDecision (data : ZibalVerifyData) :
    Except AppError VerifyPaymentResponse :=
  if data.result ≠ 100 then
    Except.error (AppError.paymentGateway
      (jsOrStr data.message "Payment verification failed") (some data.result))
  else
    Except.ok
      { refId := some (zibalRefId data.refNumber)
        cardPan := data.cardNumber }

/-! ## Claim C4 — gateway resolution -/

/-- C4: resolution of a name whose lowercase form is not registered fails
with a ValidationError listing all registered names; any capitalization of
a registered name resolves, and resolves to that name's adapter. -/
theorem gateway_resolve_spec :
    (∀ name : String, jsToLower name ∉ registeredGatewayNames →
      getPaymentGateway name =
        Except.error (AppError.validation (unsupportedGatewayMessage name))) ∧
    (∀ name : String, jsToLower name = "zarinpal" →
      getPaymentGateway name = Except.ok GatewayAdapter.zarinpal) ∧
    (∀ name : String, jsToLower name = "mock" →
      getPaymentGateway name = Except.ok GatewayAdapter.mock) := by
  refine ⟨?_, ?_, ?_⟩ <;> intro name h
  · have h1 : jsToLower name ≠ "zarinpal" := by
      intro hx
      exact h (by simp [registeredGatewayNames, gatewayRegistry, hx])
    have h2 : jsToLower name ≠ "mock" := by
      intro hx
      exact h (by simp [registeredGatewayNames, gatewayRegistry, hx])
    have hb1 : (jsToLower name == "zarinpal") = false := beq_eq_false_iff_ne.mpr h1
    have hb2 : (jsToLower name == "mock") = false := beq_eq_false_iff_ne.mpr h2
    simp [getPaymentGateway, gatewayRegistry, List.lookup, hb1, hb2]
  · simp [getPaymentGateway, gatewayRegistry, List.lookup, h]
  · simp [getPaymentGateway, gatewayRegistry, List.lookup, h]

/-- Witness for gateway_resolve_spec at the concrete names ZibAl (not
registered), ZarinPal and MOCK (capitalizations of registered names). -/
theorem gateway_resolve_spec_witness :
    (jsToLower "ZibAl" ∉ registeredGatewayNames ∧
      getPaymentGateway "ZibAl" =
        Except.error (AppError.validation (unsupportedGatewayMessage "ZibAl"))) ∧
    (jsToLower "ZarinPal" = "zarinpal" ∧
      getPaymentGateway "ZarinPal" = Except.ok GatewayAdapter.zarinpal) ∧
    (jsToLower "MOCK" = "mock" ∧
      getPaymentGateway "MOCK" = Except.ok GatewayAdapter.mock) :=
  ⟨⟨by decide, gateway_resolve_spec.1 "ZibAl" (by decide)⟩,
   ⟨by decide, gateway_resolve_spec.2.1 "ZarinPal" (by decide)⟩,
   ⟨by decide, gateway_resolve_spec.2.2 "MOCK" (by decide)⟩⟩

/-! ## Claim C5 — handling of the already-verified provider code -/

/-- C5 counterexample: on Zibal result code 201 — the Zibal code for a
payment that was already verified — ZibalGateway.verifyPayment raises a
PaymentGatewayError instead of returning success; Zarinpal, by contrast,
accepts its already-verified code 101. -/
theorem zibal_already_verified_rejected :
    zibalVerifyDecision { result := 201, message := some "verified before" } =
      Except.error (AppError.paymentGateway "verified before" (some 201)) ∧
    zarinpalVerifyDecision { code := 101, ref_id := some 12345 } =
      Except.ok { refId := some "12345" } := by
  constructor <;> rfl

/-- C5 amended: ZarinpalGateway.verifyPayment treats provider codes 100 and
101 (101 being the already-verified code) as success and every other code
as a PaymentGatewayError; ZibalGateway.verifyPayment treats only result 100
as success and raises a PaymentGatewayError carrying the provider code for
every other result, including the already-verified result code. -/
theorem gateway_already_verified_handling :
    (∀ d : ZarinpalVerifyData, d.code = 100 ∨ d.code = 101 →
      zarinpalVerifyDecision d = Except.ok
        { refId := d.ref_id.map (fun n => toString n)
          cardPan := d.card_pan
          cardHash := d.card_hash
          feeType := d.fee_type
          fee := d.fee }) ∧
    (∀ d : ZarinpalVerifyData, d.code ≠ 100 → d.code ≠ 101 →
      zarinpalVerifyDecision d = Except.error (AppError.paymentGateway
        (jsOrStr d.message "Payment verification failed") (some d.code))) ∧
    (∀ d : ZibalVerifyData, d.result = 100 →
      zibalVerifyDecision d = Except.ok
        { refId := some (zibalRefId d.refNumber), cardPan := d.cardNumber }) ∧
    (∀ d : ZibalVerifyData, d.result ≠ 100 →
      zibalVerifyDecision d = Except.error (AppError.paymentGateway
        (jsOrStr d.message "Payment verification failed") (some d.result))) := by
  refine ⟨?_, ?_, ?_, ?_⟩
  · rintro d (h | h) <;> simp [zarinpalVerifyDecision, h]
  · intro d h1 h2
    simp [zarinpalVerifyDecision, h1, h2]
  · intro d h
    simp [zibalVerifyDecision, h]
  · intro d h
    simp [zibalVerifyDecision, h]

/-- Witness for gateway_already_verified_handling at concrete provider
responses: Zarinpal codes 100, 101 and 42; Zibal results 100 and 201. -/
theorem gateway_already_verified_handling_witness :
    zarinpalVerifyDecision { code := 100, ref_id := some 7 } =
      Except.ok { refId := some "7" } ∧
    zarinpalVerifyDecision { code := 101, ref_id := some 7 } =
      Except.ok { refId := some "7" } ∧
    zarinpalVerifyDecision { code := 42, message := some "failed" } =
      Except.error (AppError.paymentGateway "failed" (some 42)) ∧
    zibalVerifyDecision { result := 100, refNumber := some 9 } =
      Except.ok { refId := some "9" } ∧
    zibalVerifyDecision { result := 201, message := some "verified" } =
      Except.error (AppError.paymentGateway "verified" (some 201)) :=
  ⟨gateway_already_verified_handling.1 { code := 100, ref_id := some 7 } (Or.inl rfl),
   gateway_already_verified_handling.1 { code := 101, ref_id := some 7 } (Or.inr rfl),
   gateway_already_verified_handling.2.1 { code := 42, message := some "failed" }
     (by decide) (by decide),
   gateway_already_verified_handling.2.2.1 { result := 100, refNumber := some 9 } rfl,
   gateway_already_verified_handling.2.2.2 { result := 201, message := some "verified" }
     (by decide)⟩

/-! ## Payment service — src/server/services/payment/payment.service.ts -/

/-- Payment row of the Prisma Payment table, restricted to the columns
PaymentService.verifyPayment reads or writes. metadata models the JSON
blob as a list of string key/value pairs. -/
structure Payment where
  id : Nat
  subscriptionId : String
  amount : Int
  currency : String
  gateway : String
  authority : String
  paymentUrl : String
  status : PaymentStatus
  gatewayTxId : Option String := none
  paidAt : Option Nat := none
  verifiedAt : Option Nat := none
  metadata : List (String × String) := []
deriving DecidableEq, Repr

/-- Writing one key of a JSON object built by spread: a defined value
overwrites the key, an undefined value leaves the key out of the
stringified result. -/
def setMetaOpt (m : List (String × String)) (k : String) (v : Option String) :
    List (String × String) :=
  match v with
  | some s => (m.filter (fun kv => kv.1 ≠ k)) ++ [(k, s)]
  | none => m.filter (fun kv => kv.1 ≠ k)

/-- The metadata object verifyPayment stores on success:
JSON.stringify of the existing metadata spread together with refId,
cardPan, cardHash, feeType and fee of the gateway response. -/
def mergeVerifyMetadata (existing : List (String × String))
    (r : VerifyPaymentResponse) : List (String × String) :=
  setMetaOpt
    (setMetaOpt
      (setMetaOpt
        (setMetaOpt
          (setMetaOpt existing "refId" r.refId)
          "cardPan" r.cardPan)
        "cardHash" r.cardHash)
      "feeType" r.feeType)
    "fee" (r.fee.map (fun n => toString n))

/-- prisma.payment.findFirst keyed on authority. -/
def findPaymentByAuthority (payments : List Payment) (authority : String) :
    Option Payment :=
  payments.find? (fun p => p.authority == authority)

/-- prisma.payment.update keyed on id, applied to the whole table. -/
def updatePaymentById (payments : List Payment) (id : Nat)
    (f : Payment → Payment) : List Payment :=
  payments.map (fun p => if p.id = id then f p else p)

/-- Column writes of the success branch of verifyPayment: status COMPLETED,
gatewayTxId from the gateway refId, paidAt and verifiedAt stamped now, and
the merged metadata. -/
def completePayment (now : Nat) (r : VerifyPaymentResponse) (p : Payment) :
    Payment :=
  { p with
    status := PaymentStatus.COMPLETED
    gatewayTxId := r.refId
    paidAt := some now
    verifiedAt := some now
    metadata := mergeVerifyMetadata p.metadata r }

/-- Observable outcome of one PaymentService.verifyPayment call: the value
returned or the error thrown, the Payment table afterwards, and how many
times the gateway adapter's verifyPayment ran during the call. -/
structure VerifyOutcome where
  result : Except AppError Payment
  payments : List Payment
  gatewayCalls : Nat
deriving Repr

/-- PaymentService.verifyPayment of payment.service.ts. The gateway
adapter's verifyPayment (reached through getPaymentGateway on the stored
gateway name) is the parameter gw, applied to the stored gateway name,
authority and amount. The branches follow the source in order: lookup by
authority, the NOK / cancel short-circuit, the already-COMPLETED
short-circuit, then the gateway verify with its catch. -/
def verifyPayment
    (gw : String → String → Int → Except AppError VerifyPaymentResponse)
    (now : Nat) (payments : List Payment) (authority : String)
    (status : Option String) : VerifyOutcome :=
  match findPaymentByAuthority payments authority with
  | none => ⟨Except.error (AppError.notFound "Payment"), payments, 0⟩
  | some payment =>
    if status = some "NOK" ∨ status = some "cancel" then
      ⟨Except.error (AppError.paymentGateway "Payment was cancelled or failed" none),
       updatePaymentById payments payment.id
         (fun p => { p with status := PaymentStatus.FAILED }), 0⟩
    else if payment.status = PaymentStatus.COMPLETED then
      ⟨Except.ok payment, payments, 0⟩
    else
      match gw payment.gateway payment.authority payment.amount with
      | Except.error e =>
        ⟨Except.error e,
         updatePaymentById payments payment.id
           (fun p => { p with status := PaymentStatus.FAILED }), 1⟩
      | Except.ok r =>
        ⟨Except.ok (completePayment now r payment),
         updatePaymentById payments payment.id
           (fun _ => completePayment now r payment), 1⟩

/-- A found payment satisfies the search predicate. -/
lemma found_authority_matches {payments : List Payment} {a : String} {p : Payment}
    (hfind : findPaymentByAuthority payments a = some p) :
    (p.authority == a) = true := by
  induction payments with
  | nil => simp [findPaymentByAuthority] at hfind
  | cons q rest ih =>
    by_cases hq : (q.authority == a) = true
    · have hp : p = q := by
        simp [findPaymentByAuthority, List.find?, hq] at hfind
        exact hfind.symm
      rw [hp]
      exact hq
    · exact ih (by simpa [findPaymentByAuthority, List.find?, hq] using hfind)

/-- Updating the found row with an authority-preserving map moves the find
result to the mapped row. -/
lemma find_update_preserving (payments : List Payment) (a : String) (p : Payment)
    (f : Payment → Payment) (hf : ∀ q, (f q).authority = q.authority)
    (hfind : findPaymentByAuthority payments a = some p) :
    findPaymentByAuthority (updatePaymentById payments p.id f) a = some (f p) := by
  induction payments with
  | nil => simp [findPaymentByAuthority] at hfind
  | cons q rest ih =>
    by_cases hq : (q.authority == a) = true
    · have hp : p = q := by
        simp [findPaymentByAuthority, List.find?, hq] at hfind
        exact hfind.symm
      subst hp
      simp [findPaymentByAuthority, updatePaymentById, List.find?, hf, hq]
    · have hrest : findPaymentByAuthority rest a = some p := by
        simpa [findPaymentByAuthority, List.find?, hq] using hfind
      have := ih hrest
      by_cases hid : q.id = p.id
      · simpa [findPaymentByAuthority, updatePaymentById, List.find?, hid, hf, hq]
          using this
      · simpa [findPaymentByAuthority, updatePaymentById, List.find?, hid, hq]
          using this

/-- Replacing the found row by a constant row carrying the same authority
moves the find result to that row. -/
lemma find_update_const (payments : List Payment) (a : String) (p u : Payment)
    (hu : u.authority = p.authority)
    (hfind : findPaymentByAuthority payments a = some p) :
    findPaymentByAuthority (updatePaymentById payments p.id (fun _ => u)) a =
      some u := by
  have hua : (u.authority == a) = true := by
    rw [hu]
    exact found_authority_matches hfind
  induction payments with
  | nil => simp [findPaymentByAuthority] at hfind
  | cons q rest ih =>
    by_cases hq : (q.authority == a) = true
    · have hp : p = q := by
        simp [findPaymentByAuthority, List.find?, hq] at hfind
        exact hfind.symm
      subst hp
      simp [findPaymentByAuthority, updatePaymentById, List.find?, hua]
    · have hrest : findPaymentByAuthority rest a = some p := by
        simpa [findPaymentByAuthority, List.find?, hq] using hfind
      have := ih hrest
      by_cases hid : q.id = p.id
      · simp [findPaymentByAuthority, updatePaymentById, List.find?, hid, hua]
      · simpa [findPaymentByAuthority, updatePaymentById, List.find?, hid, hq]
          using this

/-- The idempotence short-circuit of verifyPayment: a COMPLETED payment with
a non-cancellation status returns the stored row, leaves the table alone
and never reaches the gateway. -/
lemma verify_completed_noop
    (gw : String → String → Int → Except AppError VerifyPaymentResponse)
    (now : Nat) (payments : List Payment) (authority : String)
    (status : Option String) (p : Payment)
    (hfind : findPaymentByAuthority payments authority = some p)
    (hcomp : p.status = PaymentStatus.COMPLETED)
    (h1 : status ≠ some "NOK") (h2 : status ≠ some "cancel") :
    verifyPayment gw now payments authority status =
      ⟨Except.ok p, payments, 0⟩ := by
  simp [verifyPayment, hfind, h1, h2, hcomp]

/-- Concrete PENDING payment row used by witnesses and counterexamples. -/
def samplePayment : Payment :=
  { id := 1
    subscriptionId := "sub1"
    amount := 100000
    currency := "IRR"
    gateway := "mock"
    authority := "A-1"
    paymentUrl := "https://mock.pay/StartPay/A-1"
    status := PaymentStatus.PENDING }

/-- Concrete COMPLETED payment row. -/
def sampleCompleted : Payment :=
  { samplePayment with
    id := 2
    authority := "A-2"
    status := PaymentStatus.COMPLETED }

/-- Concrete FAILED payment row. -/
def sampleFailed : Payment :=
  { samplePayment with
    id := 3
    authority := "A-3"
    status := PaymentStatus.FAILED }

/-- Concrete verification response of a gateway stub. -/
def sampleResponse : VerifyPaymentResponse := { refId := some "REF-1" }

/-- Gateway stub whose verifyPayment always succeeds with sampleResponse. -/
def gwAlwaysOk : String → String → Int → Except AppError VerifyPaymentResponse :=
  fun _ _ _ => Except.ok sampleResponse

/-- After any verifyPayment call that returns Except.ok, the table holds
the returned payment under its authority and that payment is COMPLETED. -/
lemma verify_ok_state
    (gw : String → String → Int → Except AppError VerifyPaymentResponse)
    (now : Nat) (payments : List Payment) (authority : String)
    (status : Option String) (p : Payment) (payments1 : List Payment) (n : Nat)
    (h : verifyPayment gw now payments authority status =
      ⟨Except.ok p, payments1, n⟩) :
    findPaymentByAuthority payments1 authority = some p ∧
    p.status = PaymentStatus.COMPLETED := by
  unfold verifyPayment at h
  split at h
  · simp at h
  · rename_i payment hfind
    split at h
    · simp at h
    · split at h
      · rename_i hs1 hcomp
        obtain ⟨hp, hpay, -⟩ := by simpa using h
        constructor
        · rw [← hpay, ← hp]
          exact hfind
        · rw [← hp]
          exact hcomp
      · split at h
        · simp at h
        · rename_i r hgw
          obtain ⟨hp, hpay, -⟩ := by simpa using h
          constructor
          · rw [← hpay, ← hp]
            exact find_update_const payments authority payment
              (completePayment now r payment) rfl hfind
          · rw [← hp]
            rfl

/-! ## Claim C1 — idempotent verification of a COMPLETED payment -/

/-- C1: a payment already COMPLETED is returned as stored by verifyPayment
under a non-failure status, with no table change and zero gateway verify
calls; and after any first verifyPayment call that succeeds, a second call
with the same authority and a non-failure status returns exactly the data
of the first call, again with zero gateway verify calls. -/
theorem verifyPayment_idempotent :
    (∀ gw now payments authority status p,
      findPaymentByAuthority payments authority = some p →
      p.status = PaymentStatus.COMPLETED →
      status ≠ some "NOK" → status ≠ some "cancel" →
      verifyPayment gw now payments authority status =
        ⟨Except.ok p, payments, 0⟩) ∧
    (∀ gw gw2 now now2 payments authority s1 s2 p payments1 n,
      verifyPayment gw now payments authority s1 = ⟨Except.ok p, payments1, n⟩ →
      s2 ≠ some "NOK" → s2 ≠ some "cancel" →
      verifyPayment gw2 now2 payments1 authority s2 =
        ⟨Except.ok p, payments1, 0⟩) := by
  constructor
  · intro gw now payments authority status p hfind hcomp h1 h2
    exact verify_completed_noop gw now payments authority status p hfind hcomp h1 h2
  · intro gw gw2 now now2 payments authority s1 s2 p payments1 n h h1 h2
    obtain ⟨hfind1, hcomp1⟩ :=
      verify_ok_state gw now payments authority s1 p payments1 n h
    exact verify_completed_noop gw2 now2 payments1 authority s2 p
      hfind1 hcomp1 h1 h2

/-- Witness for verifyPayment_idempotent: a one-row table holding a
COMPLETED payment is returned unchanged, and a PENDING payment verified
successfully once is returned identically by a second call with zero
gateway calls. -/
theorem verifyPayment_idempotent_witness :
    (findPaymentByAuthority [sampleCompleted] "A-2" = some sampleCompleted ∧
      verifyPayment gwAlwaysOk 5 [sampleCompleted] "A-2" (some "OK") =
        ⟨Except.ok sampleCompleted, [sampleCompleted], 0⟩) ∧
    verifyPayment gwAlwaysOk 7 [completePayment 5 sampleResponse samplePayment]
        "A-1" none =
      ⟨Except.ok (completePayment 5 sampleResponse samplePayment),
       [completePayment 5 sampleResponse samplePayment], 0⟩ :=
  ⟨⟨rfl,
    verifyPayment_idempotent.1 gwAlwaysOk 5 [sampleCompleted] "A-2" (some "OK")
      sampleCompleted (by rfl) (by rfl) (by decide) (by decide)⟩,
   verifyPayment_idempotent.2 gwAlwaysOk gwAlwaysOk 5 7 [samplePayment] "A-1"
     none none (completePayment 5 sampleResponse samplePayment)
     [completePayment 5 sampleResponse samplePayment] 1 (by rfl)
     (by decide) (by decide)⟩

/-! ## Claim C2 — explicit cancellation path -/

/-- C2: when the callback status is NOK or cancel, verifyPayment marks the
found payment FAILED, throws PaymentGatewayError, and performs zero gateway
verify calls. -/
theorem verifyPayment_cancel_path (gw : String → String → Int →
      Except AppError VerifyPaymentResponse)
    (now : Nat) (payments : List Payment) (authority : String)
    (status : Option String) (p : Payment)
    (hfind : findPaymentByAuthority payments authority = some p)
    (hstatus : status = some "NOK" ∨ status = some "cancel") :
    verifyPayment gw now payments authority status =
      ⟨Except.error (AppError.paymentGateway "Payment was cancelled or failed" none),
       updatePaymentById payments p.id
         (fun q => { q with status := PaymentStatus.FAILED }), 0⟩ ∧
    findPaymentByAuthority
        (verifyPayment gw now payments authority status).payments authority =
      some { p with status := PaymentStatus.FAILED } := by
  have heq : verifyPayment gw now payments authority status =
      ⟨Except.error (AppError.paymentGateway "Payment was cancelled or failed" none),
       updatePaymentById payments p.id
         (fun q => { q with status := PaymentStatus.FAILED }), 0⟩ := by
    simp [verifyPayment, hfind, hstatus]
  refine ⟨heq, ?_⟩
  rw [heq]
  exact find_update_preserving payments authority p _ (fun q => rfl) hfind

/-- Witness for verifyPayment_cancel_path at a concrete PENDING payment and
status NOK. -/
theorem verifyPayment_cancel_path_witness :
    verifyPayment gwAlwaysOk 0 [samplePayment] "A-1" (some "NOK") =
      ⟨Except.error (AppError.paymentGateway "Payment was cancelled or failed" none),
       updatePaymentById [samplePayment] 1
         (fun q => { q with status := PaymentStatus.FAILED }), 0⟩ ∧
    findPaymentByAuthority
        (verifyPayment gwAlwaysOk 0 [samplePayment] "A-1" (some "NOK")).payments
        "A-1" =
      some { samplePayment with status := PaymentStatus.FAILED } :=
  verifyPayment_cancel_path gwAlwaysOk 0 [samplePayment] "A-1" (some "NOK")
    samplePayment (by rfl) (Or.inl rfl)

/-! ## Claim C3 — terminality of COMPLETED and FAILED -/

/-- C3 counterexample: COMPLETED is not terminal — verifyPayment with
status NOK rewrites a COMPLETED payment to FAILED — and FAILED is not
terminal — a successful gateway re-verification rewrites a FAILED payment
to COMPLETED. -/
theorem terminal_states_counterexample :
    (verifyPayment gwAlwaysOk 0 [sampleCompleted] "A-2" (some "NOK")).payments.map
        Payment.status = [PaymentStatus.FAILED] ∧
    (verifyPayment gwAlwaysOk 0 [sampleFailed] "A-3" none).payments.map
        Payment.status = [PaymentStatus.COMPLETED] := by
  constructor <;> rfl

/-- C3 amended: a COMPLETED payment keeps its row unchanged only under a
non-cancellation status; a status of NOK or cancel forces the found payment
to FAILED whatever its current status, and a successful gateway verify
moves any non-COMPLETED (in particular FAILED) payment to COMPLETED. -/
theorem verify_status_transitions (gw : String → String → Int →
      Except AppError VerifyPaymentResponse)
    (now : Nat) (payments : List Payment) (authority : String)
    (status : Option String) (p : Payment)
    (hfind : findPaymentByAuthority payments authority = some p) :
    ((status = some "NOK" ∨ status = some "cancel") →
      findPaymentByAuthority
          (verifyPayment gw now payments authority status).payments authority =
        some { p with status := PaymentStatus.FAILED }) ∧
    (status ≠ some "NOK" → status ≠ some "cancel" →
      p.status = PaymentStatus.COMPLETED →
      verifyPayment gw now payments authority status =
        ⟨Except.ok p, payments, 0⟩) ∧
    (∀ r, status ≠ some "NOK" → status ≠ some "cancel" →
      p.status ≠ PaymentStatus.COMPLETED →
      gw p.gateway p.authority p.amount = Except.ok r →
      findPaymentByAuthority
          (verifyPayment gw now payments authority status).payments authority =
        some (completePayment now r p)) := by
  refine ⟨?_, ?_, ?_⟩
  · intro hstatus
    exact (verifyPayment_cancel_path gw now payments authority status p
      hfind hstatus).2
  · intro h1 h2 hcomp
    exact verify_completed_noop gw now payments authority status p hfind hcomp h1 h2
  · intro r h1 h2 hcomp hgw
    have heq : verifyPayment gw now payments authority status =
        ⟨Except.ok (completePayment now r p),
         updatePaymentById payments p.id (fun _ => completePayment now r p), 1⟩ := by
      simp [verifyPayment, hfind, h1, h2, hcomp, hgw]
    rw [heq]
    exact find_update_const payments authority p (completePayment now r p) rfl hfind

/-- Witness for verify_status_transitions: the NOK rewrite on a COMPLETED
row, the unchanged return of a COMPLETED row under status OK, and the
completion of a FAILED row on gateway success. -/
theorem verify_status_transitions_witness :
    findPaymentByAuthority
        (verifyPayment gwAlwaysOk 0 [sampleCompleted] "A-2" (some "NOK")).payments
        "A-2" = some { sampleCompleted with status := PaymentStatus.FAILED } ∧
    verifyPayment gwAlwaysOk 0 [sampleCompleted] "A-2" (some "OK") =
      ⟨Except.ok sampleCompleted, [sampleCompleted], 0⟩ ∧
    findPaymentByAuthority
        (verifyPayment gwAlwaysOk 9 [sampleFailed] "A-3" none).payments "A-3" =
      some (completePayment 9 sampleResponse sampleFailed) :=
  ⟨(verify_status_transitions gwAlwaysOk 0 [sampleCompleted] "A-2" (some "NOK")
      sampleCompleted (by rfl)).1 (Or.inl rfl),
   (verify_status_transitions gwAlwaysOk 0 [sampleCompleted] "A-2" (some "OK")
      sampleCompleted (by rfl)).2.1 (by decide) (by decide) (by rfl),
   (verify_status_transitions gwAlwaysOk 9 [sampleFailed] "A-3" none
      sampleFailed (by rfl)).2.2 sampleResponse (by decide) (by decide)
      (by decide) (by rfl)⟩

/-! ## Subscription service —
src/server/services/subscription/subscription.service.ts -/

/-- Plan row (columns SubscriptionService reads). -/
structure Plan where
  id : String
  name : String
  price : Int
  currency : String
  duration : Nat
  isActive : Bool
deriving DecidableEq, Repr

/-- Subscription row (columns SubscriptionService reads or writes). -/
structure Subscription where
  id : String
  userId : String
  planId : String
  status : SubscriptionStatus
  autoRenew : Bool
  startDate : Option Nat := none
  endDate : Option Nat := none
deriving DecidableEq, Repr

/-- Milliseconds of one day; the source adds plan.duration days with
Date.setDate, modeled as uniform days. -/
def dayMs : Nat := 86400000

/-- prisma.subscription.findUnique keyed on id. -/
def findSubscriptionById (subs : List Subscription) (id : String) :
    Option Subscription :=
  subs.find? (fun s => s.id == id)

/-- prisma.plan.findUnique keyed on id (the include plan of the source). -/
def findPlanById (plans : List Plan) (id : String) : Option Plan :=
  plans.find? (fun p => p.id == id)

/-- prisma.subscription.update keyed on id. -/
def updateSubscriptionById (subs : List Subscription) (id : String)
    (f : Subscription → Subscription) : List Subscription :=
  subs.map (fun s => if s.id = id then f s else s)

/-- SubscriptionService.activateSubscription: loads the subscription with
its plan (the Prisma relation makes the plan branch unreachable for a
stored row), stamps startDate = now and endDate = now plus plan.duration
days, and sets status ACTIVE. The source reads the clock twice
back-to-back for the two dates; the embedding uses one reading. The
notification, audit and webhook side effects touch no Subscription or Plan
column. -/
def activateSubscription (subs : List Subscription) (plans : List Plan)
    (now : Nat) (subscriptionId : String) :
    Except AppError (Subscription × List Subscription) :=
  match findSubscriptionById subs subscriptionId with
  | none => Except.error (AppError.notFound "Subscription")
  | some subscription =>
    match findPlanById plans subscription.planId with
    | none => Except.error (AppError.notFound "Plan")
    | some plan =>
      let updated := { subscription with
        status := SubscriptionStatus.ACTIVE
        startDate := some now
        endDate := some (now + plan.duration * dayMs) }
      Except.ok (updated, updateSubscriptionById subs subscriptionId (fun _ => updated))

/-- SubscriptionService.cancelSubscription: sets status CANCELLED and
autoRenew false; the update data clause names no other column. -/
def cancelSubscription (subs : List Subscription) (subscriptionId : String) :
    Except AppError (Subscription × List Subscription) :=
  match findSubscriptionById subs subscriptionId with
  | none => Except.error (AppError.notFound "Subscription")
  | some subscription =>
    let updated := { subscription with
      status := SubscriptionStatus.CANCELLED
      autoRenew := false }
    Except.ok (updated, updateSubscriptionById subs subscriptionId (fun _ => updated))

/-- Concrete plan row used by witnesses. -/
def samplePlan : Plan :=
  { id := "plan1"
    name := "Monthly"
    price := 100000
    currency := "IRR"
    duration := 30
    isActive := true }

/-- Concrete subscription row used by witnesses. -/
def sampleSubscription : Subscription :=
  { id := "sub1"
    userId := "user1"
    planId := "plan1"
    status := SubscriptionStatus.PENDING
    autoRenew := true
    startDate := none
    endDate := some 123456 }

/-! ## Claim C8 — activation dates -/

/-- C8: for an existing subscription (with its plan), activateSubscription
returns a row with status ACTIVE, startDate = now, and endDate = startDate
plus plan.duration days exactly, and writes that row back to the table. -/
theorem activateSubscription_dates (subs : List Subscription)
    (plans : List Plan) (now : Nat) (subscriptionId : String)
    (sub : Subscription) (plan : Plan)
    (hsub : findSubscriptionById subs subscriptionId = some sub)
    (hplan : findPlanById plans sub.planId = some plan) :
    ∃ u : Subscription,
      activateSubscription subs plans now subscriptionId =
        Except.ok (u, updateSubscriptionById subs subscriptionId (fun _ => u)) ∧
      u.status = SubscriptionStatus.ACTIVE ∧
      u.startDate = some now ∧
      u.endDate = some (now + plan.duration * dayMs) := by
  refine ⟨{ sub with
    status := SubscriptionStatus.ACTIVE
    startDate := some now
    endDate := some (now + plan.duration * dayMs) }, ?_, rfl, rfl, rfl⟩
  simp [activateSubscription, hsub, hplan]

/-- Witness for activateSubscription_dates at the concrete subscription and
the 30-day plan, at time 1000. -/
theorem activateSubscription_dates_witness :
    findSubscriptionById [sampleSubscription] "sub1" = some sampleSubscription ∧
    findPlanById [samplePlan] sampleSubscription.planId = some samplePlan ∧
    ∃ u : Subscription,
      activateSubscription [sampleSubscription] [samplePlan] 1000 "sub1" =
        Except.ok (u, updateSubscriptionById [sampleSubscription] "sub1" (fun _ => u)) ∧
      u.status = SubscriptionStatus.ACTIVE ∧
      u.startDate = some 1000 ∧
      u.endDate = some (1000 + samplePlan.duration * dayMs) :=
  ⟨by rfl, by rfl,
   activateSubscription_dates [sampleSubscription] [samplePlan] 1000 "sub1"
     sampleSubscription samplePlan (by rfl) (by rfl)⟩

/-! ## Claim C9 — cancellation frame -/

/-- C9: for an existing subscription, cancelSubscription sets status
CANCELLED and autoRenew false and leaves every other column — in
particular endDate — exactly as it was. -/
theorem cancelSubscription_frame (subs : List Subscription)
    (subscriptionId : String) (sub : Subscription)
    (hsub : findSubscriptionById subs subscriptionId = some sub) :
    ∃ u : Subscription,
      cancelSubscription subs subscriptionId =
        Except.ok (u, updateSubscriptionById subs subscriptionId (fun _ => u)) ∧
      u.status = SubscriptionStatus.CANCELLED ∧
      u.autoRenew = false ∧
      u.id = sub.id ∧
      u.userId = sub.userId ∧
      u.planId = sub.planId ∧
      u.startDate = sub.startDate ∧
      u.endDate = sub.endDate := by
  refine ⟨{ sub with
    status := SubscriptionStatus.CANCELLED
    autoRenew := false }, ?_, rfl, rfl, rfl, rfl, rfl, rfl, rfl⟩
  simp [cancelSubscription, hsub]

/-- Witness for cancelSubscription_frame at the concrete subscription,
whose endDate is some 123456. -/
theorem cancelSubscription_frame_witness :
    findSubscriptionById [sampleSubscription] "sub1" = some sampleSubscription ∧
    ∃ u : Subscription,
      cancelSubscription [sampleSubscription] "sub1" =
        Except.ok (u, updateSubscriptionById [sampleSubscription] "sub1" (fun _ => u)) ∧
      u.status = SubscriptionStatus.CANCELLED ∧
      u.autoRenew = false ∧
      u.id = sampleSubscription.id ∧
      u.userId = sampleSubscription.userId ∧
      u.planId = sampleSubscription.planId ∧
      u.startDate = sampleSubscription.startDate ∧
      u.endDate = sampleSubscription.endDate :=
  ⟨by rfl,
   cancelSubscription_frame [sampleSubscription] "sub1" sampleSubscription (by rfl)⟩

/-! ## Auth service — src/server/services/auth/auth.service.ts -/

/-- Configured values env.AUTH read by AuthService (external config):
OTP_LENGTH, OTP_EXP_MIN, RATE_LIMIT_WINDOW_SEC, RATE_LIMIT_MAX_REQUESTS. -/
structure AuthConfig where
  otpExpMin : Nat
  rateLimitWindowSec : Nat
  rateLimitMaxRequests : Nat
deriving DecidableEq, Repr

/-- RateEntry of auth.service.ts: count and windowStart (ms). -/
structure RateEntry where
  count : Nat
  windowStart : Nat
deriving DecidableEq, Repr

/-- The plain Error objects AuthService throws, by message:
tooManyOtpRequests is the throw with message Too many OTP requests. Please
wait and try again.; otpNotFoundOrExpired the one with message OTP not
found or expired; invalidOtpCode the one with message Invalid OTP code. -/
inductive AuthErr
  | tooManyOtpRequests
  | otpNotFoundOrExpired
  | invalidOtpCode
deriving DecidableEq, Repr

/-- List-of-characters model of String.prototype.trim: whitespace dropped
from both ends. -/
def trimChars (s : List Char) : List Char :=
  ((s.dropWhile Char.isWhitespace).reverse.dropWhile Char.isWhitespace).reverse

/-- Whitespace dropped from the right end only (used to state what trim
does to a string with a known first character). -/
def trimRightChars (s : List Char) : List Char :=
  (s.reverse.dropWhile Char.isWhitespace).reverse

/-- AuthService.normalizePhone: trim, then a leading +98 replaced by 0. -/
def normalizePhone (phone : String) : String :=
  let p := trimChars phone.data
  if p.take 3 = ['+', '9', '8'] then String.mk ('0' :: p.drop 3)
  else String.mk p

/-- The rate-limiter key requestOtp uses for a phone. -/
def otpKey (rawPhone : String) : String := "otp:" ++ normalizePhone rawPhone

/-- One OtpCode row of the Prisma OtpCode table. -/
structure OtpCode where
  id : Nat
  phone : String
  codeHash : String
  expiresAt : Nat
  attempts : Nat
  usedAt : Option Nat
  createdAt : Nat
deriving DecidableEq, Repr

/-- One User row (columns verifyOtp reads or writes). -/
structure UserRec where
  id : Nat
  phone : String
  role : String
deriving DecidableEq, Repr

/-- One ApiKey row (columns verifyOtp writes). -/
structure ApiKeyRec where
  userId : Nat
  hash : String
  label : String
deriving DecidableEq, Repr

/-- State an AuthService call touches: the in-memory rate Map plus the
OtpCode, User and ApiKey tables; nextOtpId and nextUserId model row id
generation of the database. -/
structure AuthState where
  rate : List (String × RateEntry)
  otps : List OtpCode
  users : List UserRec
  apiKeys : List ApiKeyRec
  nextOtpId : Nat
  nextUserId : Nat
deriving DecidableEq, Repr

/-- this.rate.set(key, e). -/
def setRate (rate : List (String × RateEntry)) (key : String) (e : RateEntry) :
    List (String × RateEntry) :=
  (key, e) :: rate.filter (fun kv => kv.1 ≠ key)

/-- AuthService.checkRateLimit: fixed-window counting. A missing or stale
entry (now − windowStart strictly beyond the window) resets to count 1; a
count at the configured max throws; otherwise the count increments. The
throw happens before any mutation, so the error leaves the map unchanged. -/
def checkRateLimit (cfg : AuthConfig) (now : Nat)
    (rate : List (String × RateEntry)) (key : String) :
    Except AuthErr (List (String × RateEntry)) :=
  let windowMs := cfg.rateLimitWindowSec * 1000
  match rate.lookup key with
  | none => Except.ok (setRate rate key { count := 1, windowStart := now })
  | some entry =>
    if now - entry.windowStart > windowMs then
      Except.ok (setRate rate key { count := 1, windowStart := now })
    else if entry.count ≥ cfg.rateLimitMaxRequests then
      Except.error AuthErr.tooManyOtpRequests
    else
      Except.ok (setRate rate key { entry with count := entry.count + 1 })

/-- AuthService.requestOtp: normalize, rate-limit, then store a row holding
the hash of the generated code with expiry now + OTP_EXP_MIN minutes. The
random code (crypto.randomInt) and the hash (sha256) are parameters; the
SMS send does not touch this state. -/
def requestOtp (cfg : AuthConfig) (hash : String → String) (now : Nat)
    (code : String) (s : AuthState) (rawPhone : String) :
    Except AuthErr Unit × AuthState :=
  let phone := normalizePhone rawPhone
  match checkRateLimit cfg now s.rate (otpKey rawPhone) with
  | Except.error e => (Except.error e, s)
  | Except.ok rate1 =>
    (Except.ok (),
     { s with
       rate := rate1
       otps := s.otps ++ [{
         id := s.nextOtpId
         phone := phone
         codeHash := hash code
         expiresAt := now + cfg.otpExpMin * 60000
         attempts := 0
         usedAt := none
         createdAt := now }]
       nextOtpId := s.nextOtpId + 1 })

/-- prisma.otpCode.findFirst where phone, usedAt null, expiresAt strictly
after now, orderBy createdAt desc: the matching row with the greatest
createdAt (the earlier row wins a tie). -/
def latestValidOtp (otps : List OtpCode) (phone : String) (now : Nat) :
    Option OtpCode :=
  (otps.filter (fun r => r.phone = phone ∧ r.usedAt = none ∧ now < r.expiresAt)).foldl
    (fun acc r =>
      match acc with
      | none => some r
      | some b => if r.createdAt > b.createdAt then some r else some b)
    none

/-- Value verifyOtp returns on success: the found-or-created user and the
plaintext of the freshly minted api key. -/
structure VerifyOtpResult where
  user : UserRec
  apiKey : String
deriving DecidableEq, Repr

/-- AuthService.verifyOtp: find the newest unused unexpired row for the
normalized phone (error when none), compare hashes, increment attempts —
stamping usedAt only on a match — then on success find-or-create the user
and store the hash of a fresh api key. The attempts/usedAt update precedes
the invalid-code throw, so that error carries the updated table. hash and
the random key plaintext apiKeyPlain are parameters. -/
def verifyOtp (hash : String → String) (now : Nat) (apiKeyPlain : String)
    (s : AuthState) (rawPhone : String) (code : String) :
    Except AuthErr VerifyOtpResult × AuthState :=
  let phone := normalizePhone rawPhone
  match latestValidOtp s.otps phone now with
  | none => (Except.error AuthErr.otpNotFoundOrExpired, s)
  | some record =>
    let ok := record.codeHash = hash code
    let otps1 := s.otps.map (fun r =>
      if r.id = record.id then
        { r with
          attempts := r.attempts + 1
          usedAt := if ok then some now else r.usedAt }
      else r)
    if ok then
      match s.users.find? (fun u => u.phone = phone) with
      | some user =>
        (Except.ok { user := user, apiKey := apiKeyPlain },
         { s with
           otps := otps1
           apiKeys := s.apiKeys ++
             [{ userId := user.id, hash := hash apiKeyPlain, label := "login" }] })
      | none =>
        let user : UserRec := { id := s.nextUserId, phone := phone, role := "USER" }
        (Except.ok { user := user, apiKey := apiKeyPlain },
         { s with
           otps := otps1
           users := s.users ++ [user]
           nextUserId := s.nextUserId + 1
           apiKeys := s.apiKeys ++
             [{ userId := user.id, hash := hash apiKeyPlain, label := "login" }] })
    else
      (Except.error AuthErr.invalidOtpCode, { s with otps := otps1 })

/-- Successive requestOtp calls for one phone: each list element is the
clock reading and generated code of one call; outcomes are returned in
call order together with the final state. -/
def runOtpRequests (cfg : AuthConfig) (hash : String → String)
    (rawPhone : String) : List (Nat × String) → AuthState →
      List (Except AuthErr Unit) × AuthState
  | [], s => ([], s)
  | (t, code) :: rest, s =>
    let step := requestOtp cfg hash t code s rawPhone
    let tail := runOtpRequests cfg hash rawPhone rest step.2
    (step.1 :: tail.1, tail.2)

/-- Auth state with empty tables and no rate counters. -/
def emptyAuthState : AuthState :=
  { rate := []
    otps := []
    users := []
    apiKeys := []
    nextOtpId := 1
    nextUserId := 1 }

/-- Looking up the key just set returns the value just set. -/
lemma lookup_setRate (rate : List (String × RateEntry)) (key : String)
    (e : RateEntry) : (setRate rate key e).lookup key = some e := by
  simp [setRate, List.lookup]

/-- Requests inside the window, while the counter has room, all succeed and
each adds one to the counter without moving windowStart. -/
lemma runOtpRequests_within_window (cfg : AuthConfig) (hash : String → String)
    (rawPhone : String) (calls : List (Nat × String)) :
    ∀ (s : AuthState) (c w : Nat),
      s.rate.lookup (otpKey rawPhone) = some ⟨c, w⟩ →
      (∀ t ∈ calls.map Prod.fst, t - w ≤ cfg.rateLimitWindowSec * 1000) →
      c + calls.length ≤ cfg.rateLimitMaxRequests →
      (runOtpRequests cfg hash rawPhone calls s).1 =
        List.replicate calls.length (Except.ok ()) ∧
      ((runOtpRequests cfg hash rawPhone calls s).2).rate.lookup
          (otpKey rawPhone) = some ⟨c + calls.length, w⟩ := by
  induction calls with
  | nil =>
    intro s c w hentry _ _
    simpa [runOtpRequests] using hentry
  | cons tc rest ih =>
    intro s c w hentry hwin hcap
    obtain ⟨t, code⟩ := tc
    have ht : t - w ≤ cfg.rateLimitWindowSec * 1000 := hwin t (by simp)
    have hlt : ¬(cfg.rateLimitWindowSec * 1000 < t - w) := by omega
    have hge : ¬(c ≥ cfg.rateLimitMaxRequests) := by
      simp at hcap ⊢
      omega
    have hchk : checkRateLimit cfg t s.rate (otpKey rawPhone) =
        Except.ok (setRate s.rate (otpKey rawPhone) ⟨c + 1, w⟩) := by
      simp [checkRateLimit, hentry, hlt, hge]
    have hstep1 : (requestOtp cfg hash t code s rawPhone).1 = Except.ok () := by
      simp [requestOtp, hchk]
    have hstep2 : ((requestOtp cfg hash t code s rawPhone).2).rate.lookup
        (otpKey rawPhone) = some ⟨c + 1, w⟩ := by
      simp [requestOtp, hchk, lookup_setRate]
    have hwin' : ∀ u ∈ rest.map Prod.fst,
        u - w ≤ cfg.rateLimitWindowSec * 1000 := by
      intro u hu
      exact hwin u (by simp [hu])
    have hcap' : (c + 1) + rest.length ≤ cfg.rateLimitMaxRequests := by
      simp at hcap
      omega
    obtain ⟨hrest1, hrest2⟩ :=
      ih ((requestOtp cfg hash t code s rawPhone).2) (c + 1) w hstep2 hwin' hcap'
    constructor
    · simp [runOtpRequests, hstep1, hrest1, List.replicate_succ]
    · have : c + 1 + rest.length = c + (rest.length + 1) := by omega
      simp [runOtpRequests, ← this, hrest2]

/-! ## Claim C6 — OTP request rate limiting -/

/-- C6: starting from no counter for the phone, the first
RATE_LIMIT_MAX_REQUESTS requestOtp calls inside one window all succeed,
the next call inside the window fails with the rate-limit error and leaves
the state untouched, and a call strictly past the window (now − windowStart
beyond windowMs) succeeds again because the counter resets. -/
theorem rate_limit_window (cfg : AuthConfig) (hash : String → String)
    (s0 : AuthState) (rawPhone : String) (t1 : Nat) (code1 : String)
    (calls : List (Nat × String)) (tExtra : Nat) (codeExtra : String)
    (tAfter : Nat) (codeAfter : String)
    (hmax : 1 ≤ cfg.rateLimitMaxRequests)
    (hfresh : s0.rate.lookup (otpKey rawPhone) = none)
    (hlen : calls.length = cfg.rateLimitMaxRequests - 1)
    (hwin : ∀ t ∈ calls.map Prod.fst, t - t1 ≤ cfg.rateLimitWindowSec * 1000)
    (hwinExtra : tExtra - t1 ≤ cfg.rateLimitWindowSec * 1000)
    (hafter : tAfter - t1 > cfg.rateLimitWindowSec * 1000) :
    (runOtpRequests cfg hash rawPhone ((t1, code1) :: calls) s0).1 =
      List.replicate cfg.rateLimitMaxRequests (Except.ok ()) ∧
    (requestOtp cfg hash tExtra codeExtra
        (runOtpRequests cfg hash rawPhone ((t1, code1) :: calls) s0).2
        rawPhone).1 = Except.error AuthErr.tooManyOtpRequests ∧
    (requestOtp cfg hash tExtra codeExtra
        (runOtpRequests cfg hash rawPhone ((t1, code1) :: calls) s0).2
        rawPhone).2 =
      (runOtpRequests cfg hash rawPhone ((t1, code1) :: calls) s0).2 ∧
    (requestOtp cfg hash tAfter codeAfter
        (requestOtp cfg hash tExtra codeExtra
          (runOtpRequests cfg hash rawPhone ((t1, code1) :: calls) s0).2
          rawPhone).2
        rawPhone).1 = Except.ok () := by
  have hchk1 : checkRateLimit cfg t1 s0.rate (otpKey rawPhone) =
      Except.ok (setRate s0.rate (otpKey rawPhone) ⟨1, t1⟩) := by
    simp [checkRateLimit, hfresh]
  have hstep1 : (requestOtp cfg hash t1 code1 s0 rawPhone).1 = Except.ok () := by
    simp [requestOtp, hchk1]
  have hstep2 : ((requestOtp cfg hash t1 code1 s0 rawPhone).2).rate.lookup
      (otpKey rawPhone) = some ⟨1, t1⟩ := by
    simp [requestOtp, hchk1, lookup_setRate]
  have hcap : 1 + calls.length ≤ cfg.rateLimitMaxRequests := by omega
  obtain ⟨hrest1, hrest2⟩ := runOtpRequests_within_window cfg hash rawPhone calls
    ((requestOtp cfg hash t1 code1 s0 rawPhone).2) 1 t1 hstep2 hwin hcap
  have hcount : 1 + calls.length = cfg.rateLimitMaxRequests := by omega
  have hfull : ((runOtpRequests cfg hash rawPhone ((t1, code1) :: calls) s0).2).rate.lookup
      (otpKey rawPhone) = some ⟨cfg.rateLimitMaxRequests, t1⟩ := by
    simp [runOtpRequests, hrest2, hcount]
  have hchkExtra : checkRateLimit cfg tExtra
      ((runOtpRequests cfg hash rawPhone ((t1, code1) :: calls) s0).2).rate
      (otpKey rawPhone) = Except.error AuthErr.tooManyOtpRequests := by
    have hlt : ¬(cfg.rateLimitWindowSec * 1000 < tExtra - t1) := by omega
    simp [checkRateLimit, hfull, hlt]
  refine ⟨?_, ?_, ?_, ?_⟩
  · have : cfg.rateLimitMaxRequests = calls.length + 1 := by omega
    simp [runOtpRequests, hstep1, hrest1, this, List.replicate_succ]
  · simp [requestOtp, hchkExtra]
  · simp [requestOtp, hchkExtra]
  · have hstate : (requestOtp cfg hash tExtra codeExtra
        (runOtpRequests cfg hash rawPhone ((t1, code1) :: calls) s0).2
        rawPhone).2 =
        (runOtpRequests cfg hash rawPhone ((t1, code1) :: calls) s0).2 := by
      simp [requestOtp, hchkExtra]
    rw [hstate]
    have hchkAfter : checkRateLimit cfg tAfter
        ((runOtpRequests cfg hash rawPhone ((t1, code1) :: calls) s0).2).rate
        (otpKey rawPhone) =
        Except.ok (setRate
          ((runOtpRequests cfg hash rawPhone ((t1, code1) :: calls) s0).2).rate
          (otpKey rawPhone) ⟨1, tAfter⟩) := by
      have hlt : cfg.rateLimitWindowSec * 1000 < tAfter - t1 := hafter
      simp [checkRateLimit, hfull, hlt]
    simp [requestOtp, hchkAfter]

/-- Concrete configuration used by witnesses: two requests per 60-second
window, codes valid two minutes. -/
def cfgSample : AuthConfig :=
  { otpExpMin := 2
    rateLimitWindowSec := 60
    rateLimitMaxRequests := 2 }

/-- Witness for rate_limit_window: with max 2 per 60 s window, calls at 0 ms
and 1000 ms succeed, the call at 2000 ms fails and changes nothing, and the
call at 70000 ms (past the window) succeeds. -/
theorem rate_limit_window_witness :
    (runOtpRequests cfgSample id "0912" ((0, "11111") :: [(1000, "22222")])
        emptyAuthState).1 = List.replicate 2 (Except.ok ()) ∧
    (requestOtp cfgSample id 2000 "33333"
        (runOtpRequests cfgSample id "0912" ((0, "11111") :: [(1000, "22222")])
          emptyAuthState).2 "0912").1 =
      Except.error AuthErr.tooManyOtpRequests ∧
    (requestOtp cfgSample id 2000 "33333"
        (runOtpRequests cfgSample id "0912" ((0, "11111") :: [(1000, "22222")])
          emptyAuthState).2 "0912").2 =
      (runOtpRequests cfgSample id "0912" ((0, "11111") :: [(1000, "22222")])
        emptyAuthState).2 ∧
    (requestOtp cfgSample id 70000 "44444"
        (requestOtp cfgSample id 2000 "33333"
          (runOtpRequests cfgSample id "0912" ((0, "11111") :: [(1000, "22222")])
            emptyAuthState).2 "0912").2 "0912").1 = Except.ok () :=
  rate_limit_window cfgSample id emptyAuthState "0912" 0 "11111"
    [(1000, "22222")] 2000 "33333" 70000 "44444"
    (by decide) rfl rfl (by decide) (by decide) (by decide)

/-- The OtpCode row a successful requestOtp call appends. -/
def freshOtpRow (cfg : AuthConfig) (hash : String → String) (now : Nat)
    (code : String) (s : AuthState) (rawPhone : String) : OtpCode :=
  { id := s.nextOtpId
    phone := normalizePhone rawPhone
    codeHash := hash code
    expiresAt := now + cfg.otpExpMin * 60000
    attempts := 0
    usedAt := none
    createdAt := now }

/-- A user found by phone has that phone. -/
lemma find_user_phone {users : List UserRec} {phone : String} {u : UserRec}
    (h : users.find? (fun v => v.phone = phone) = some u) : u.phone = phone := by
  induction users with
  | nil => simp at h
  | cons v rest ih =>
    by_cases hv : v.phone = phone
    · have hvu : v = u := by simpa [List.find?, hv] using h
      rw [← hvu]
      exact hv
    · exact ih (by simpa [List.find?, hv] using h)

/-- Shape of the state after a successful requestOtp: one appended OtpCode
row holding the hashed code, users untouched. -/
lemma requestOtp_ok_shape (cfg : AuthConfig) (hash : String → String)
    (now : Nat) (code : String) (s : AuthState) (rawPhone : String)
    (h : (requestOtp cfg hash now code s rawPhone).1 = Except.ok ()) :
    (requestOtp cfg hash now code s rawPhone).2.otps =
      s.otps ++ [freshOtpRow cfg hash now code s rawPhone] ∧
    (requestOtp cfg hash now code s rawPhone).2.users = s.users := by
  cases hc : checkRateLimit cfg now s.rate (otpKey rawPhone) with
  | error e =>
    have hbad : (requestOtp cfg hash now code s rawPhone).1 = Except.error e := by
      simp [requestOtp, hc]
    rw [hbad] at h
    simp at h
  | ok rate1 =>
    constructor <;> simp [requestOtp, freshOtpRow, hc]

/-- verifyOtp fails with the not-found error when no unused unexpired row
matches the normalized phone. -/
lemma verifyOtp_none (hash : String → String) (now : Nat) (k : String)
    (s : AuthState) (rawPhone : String) (code : String)
    (h : latestValidOtp s.otps (normalizePhone rawPhone) now = none) :
    (verifyOtp hash now k s rawPhone code).1 =
      Except.error AuthErr.otpNotFoundOrExpired := by
  simp [verifyOtp, h]

/-- Round trip of one OTP: with no prior rows for the phone, a successful
requestOtp followed by verifyOtp with the generated code before expiry
succeeds (for any spelling of the phone that normalizes identically),
returns a user carrying the normalized phone together with the fresh api
key, and a second verifyOtp with the same code fails because the row is
consumed. -/
lemma otp_round_trip (cfg : AuthConfig) (hash : String → String)
    (s0 : AuthState) (p1 p2 : String) (code : String)
    (t1 t2 t3 : Nat) (k1 k2 : String)
    (hnorm : normalizePhone p2 = normalizePhone p1)
    (hfresh : ∀ r ∈ s0.otps, r.phone ≠ normalizePhone p1)
    (hreq : (requestOtp cfg hash t1 code s0 p1).1 = Except.ok ())
    (ht2 : t2 < t1 + cfg.otpExpMin * 60000) :
    ∃ u : UserRec,
      (verifyOtp hash t2 k1 (requestOtp cfg hash t1 code s0 p1).2 p2 code).1 =
        Except.ok { user := u, apiKey := k1 } ∧
      u.phone = normalizePhone p1 ∧
      (verifyOtp hash t3 k2
          (verifyOtp hash t2 k1 (requestOtp cfg hash t1 code s0 p1).2 p2 code).2
          p2 code).1 = Except.error AuthErr.otpNotFoundOrExpired := by
  obtain ⟨hotps, husers⟩ := requestOtp_ok_shape cfg hash t1 code s0 p1 hreq
  generalize hs1 : (requestOtp cfg hash t1 code s0 p1).2 = s1 at hotps husers ⊢
  have hlatest : latestValidOtp s1.otps (normalizePhone p1) t2 =
      some (freshOtpRow cfg hash t1 code s0 p1) := by
    have hnilB : List.filter (fun r : OtpCode =>
        decide (r.phone = normalizePhone p1 ∧ r.usedAt = none ∧
          t2 < r.expiresAt)) s0.otps = [] := by
      rw [List.filter_eq_nil_iff]
      intro r hr hpr
      exact hfresh r hr (of_decide_eq_true hpr).1
    rw [hotps]
    unfold latestValidOtp
    rw [List.filter_append, hnilB]
    simp [freshOtpRow, ht2]
  have hok : (freshOtpRow cfg hash t1 code s0 p1).codeHash = hash code := rfl
  cases hu : s0.users.find? (fun u => u.phone = normalizePhone p1) with
  | some user =>
    refine ⟨user, ?_, find_user_phone hu, ?_⟩
    · simp [verifyOtp, hlatest, hnorm, husers, hu, freshOtpRow]
    · have hs2otps : (verifyOtp hash t2 k1 s1 p2 code).2.otps =
          s1.otps.map (fun r =>
            if r.id = (freshOtpRow cfg hash t1 code s0 p1).id then
              { r with attempts := r.attempts + 1, usedAt := some t2 }
            else r) := by
        simp [verifyOtp, hlatest, hnorm, husers, hu, freshOtpRow]
      have hnone : latestValidOtp (verifyOtp hash t2 k1 s1 p2 code).2.otps
          (normalizePhone p1) t3 = none := by
        rw [hs2otps, hotps]
        unfold latestValidOtp
        have hnil2 : List.filter (fun r : OtpCode =>
            decide (r.phone = normalizePhone p1 ∧ r.usedAt = none ∧
              t3 < r.expiresAt))
            ((s0.otps ++ [freshOtpRow cfg hash t1 code s0 p1]).map (fun r =>
              if r.id = (freshOtpRow cfg hash t1 code s0 p1).id then
                { r with attempts := r.attempts + 1, usedAt := some t2 }
              else r)) = [] := by
          rw [List.filter_eq_nil_iff]
          intro r hr hpr
          obtain ⟨r0, hr0, hfr⟩ := List.mem_map.mp hr
          have hpr' : r.phone = normalizePhone p1 ∧ r.usedAt = none ∧
              t3 < r.expiresAt := of_decide_eq_true hpr
          rcases List.mem_append.mp hr0 with h0 | h0
          · apply hfresh r0 h0
            have hrphone : r.phone = r0.phone := by
              rw [← hfr]
              by_cases hid : r0.id = (freshOtpRow cfg hash t1 code s0 p1).id <;>
                simp [hid]
            rw [← hrphone]
            exact hpr'.1
          · have hr0fresh : r0 = freshOtpRow cfg hash t1 code s0 p1 := by
              simpa using h0
            rw [hr0fresh] at hfr
            have hused : r.usedAt = some t2 := by
              rw [← hfr]
              simp
            rw [hused] at hpr'
            exact Option.noConfusion hpr'.2.1
        rw [hnil2]
        rfl
      exact verifyOtp_none hash t3 k2 _ p2 code (by rw [hnorm]; exact hnone)
  | none =>
    refine ⟨{ id := s1.nextUserId, phone := normalizePhone p1, role := "USER" },
      ?_, rfl, ?_⟩
    · simp [verifyOtp, hlatest, hnorm, husers, hu, freshOtpRow]
    · have hs2otps : (verifyOtp hash t2 k1 s1 p2 code).2.otps =
          s1.otps.map (fun r =>
            if r.id = (freshOtpRow cfg hash t1 code s0 p1).id then
              { r with attempts := r.attempts + 1, usedAt := some t2 }
            else r) := by
        simp [verifyOtp, hlatest, hnorm, husers, hu, freshOtpRow]
      have hnone : latestValidOtp (verifyOtp hash t2 k1 s1 p2 code).2.otps
          (normalizePhone p1) t3 = none := by
        rw [hs2otps, hotps]
        unfold latestValidOtp
        have hnil2 : List.filter (fun r : OtpCode =>
            decide (r.phone = normalizePhone p1 ∧ r.usedAt = none ∧
              t3 < r.expiresAt))
            ((s0.otps ++ [freshOtpRow cfg hash t1 code s0 p1]).map (fun r =>
              if r.id = (freshOtpRow cfg hash t1 code s0 p1).id then
                { r with attempts := r.attempts + 1, usedAt := some t2 }
              else r)) = [] := by
          rw [List.filter_eq_nil_iff]
          intro r hr hpr
          obtain ⟨r0, hr0, hfr⟩ := List.mem_map.mp hr
          have hpr' : r.phone = normalizePhone p1 ∧ r.usedAt = none ∧
              t3 < r.expiresAt := of_decide_eq_true hpr
          rcases List.mem_append.mp hr0 with h0 | h0
          · apply hfresh r0 h0
            have hrphone : r.phone = r0.phone := by
              rw [← hfr]
              by_cases hid : r0.id = (freshOtpRow cfg hash t1 code s0 p1).id <;>
                simp [hid]
            rw [← hrphone]
            exact hpr'.1
          · have hr0fresh : r0 = freshOtpRow cfg hash t1 code s0 p1 := by
              simpa using h0
            rw [hr0fresh] at hfr
            have hused : r.usedAt = some t2 := by
              rw [← hfr]
              simp
            rw [hused] at hpr'
            exact Option.noConfusion hpr'.2.1
        rw [hnil2]
        rfl
      exact verifyOtp_none hash t3 k2 _ p2 code (by rw [hnorm]; exact hnone)

/-! ## Claim C7 — OTP consumed exactly once -/

/-- C7: after a successful requestOtp for a phone with no prior OTP rows,
verifyOtp with that phone and the generated code before its expiry
succeeds — returning a user carrying the normalized phone together with
the freshly minted api key and consuming the row — and a second verifyOtp
with the same code then fails because the code is consumed. -/
theorem otp_verify_once (cfg : AuthConfig) (hash : String → String)
    (s0 : AuthState) (rawPhone code : String) (t1 t2 t3 : Nat)
    (k1 k2 : String)
    (hfresh : ∀ r ∈ s0.otps, r.phone ≠ normalizePhone rawPhone)
    (hreq : (requestOtp cfg hash t1 code s0 rawPhone).1 = Except.ok ())
    (ht2 : t2 < t1 + cfg.otpExpMin * 60000) :
    ∃ u : UserRec,
      (verifyOtp hash t2 k1 (requestOtp cfg hash t1 code s0 rawPhone).2
          rawPhone code).1 = Except.ok { user := u, apiKey := k1 } ∧
      u.phone = normalizePhone rawPhone ∧
      (verifyOtp hash t3 k2
          (verifyOtp hash t2 k1 (requestOtp cfg hash t1 code s0 rawPhone).2
            rawPhone code).2
          rawPhone code).1 = Except.error AuthErr.otpNotFoundOrExpired :=
  otp_round_trip cfg hash s0 rawPhone rawPhone code t1 t2 t3 k1 k2
    rfl hfresh hreq ht2

/-- Witness for otp_verify_once: phone 0912, code 12345 requested at 0 ms
is verifiable at 1000 ms exactly once; the retry at 2000 ms fails. -/
theorem otp_verify_once_witness :
    ∃ u : UserRec,
      (verifyOtp id 1000 "K1" (requestOtp cfgSample id 0 "12345"
          emptyAuthState "0912").2 "0912" "12345").1 =
        Except.ok { user := u, apiKey := "K1" } ∧
      u.phone = normalizePhone "0912" ∧
      (verifyOtp id 2000 "K2"
          (verifyOtp id 1000 "K1" (requestOtp cfgSample id 0 "12345"
            emptyAuthState "0912").2 "0912" "12345").2
          "0912" "12345").1 = Except.error AuthErr.otpNotFoundOrExpired :=
  otp_verify_once cfgSample id emptyAuthState "0912" "12345" 0 1000 2000
    "K1" "K2" (by simp [emptyAuthState]) rfl (by decide)

/-- dropWhile over an append stops at an element failing the predicate. -/
lemma dropWhile_append_not (p : Char → Bool) (l1 l2 : List Char) (c : Char)
    (hc : p c = false) :
    (l1 ++ c :: l2).dropWhile p = l1.dropWhile p ++ c :: l2 := by
  induction l1 with
  | nil => simp [List.dropWhile, hc]
  | cons a l ih =>
    by_cases ha : p a = true
    · simp [List.dropWhile, ha, ih]
    · have ha' : p a = false := by
        cases hpa : p a
        · rfl
        · exact absurd hpa ha
      simp [List.dropWhile, ha']

/-- trim of a list starting with a non-whitespace character keeps the head
and right-trims the tail. -/
lemma trim_cons_not_ws (c : Char) (r : List Char)
    (hc : c.isWhitespace = false) :
    trimChars (c :: r) = c :: trimRightChars r := by
  unfold trimChars trimRightChars
  have h1 : (c :: r).dropWhile Char.isWhitespace = c :: r := by
    simp [List.dropWhile, hc]
  rw [h1, List.reverse_cons, dropWhile_append_not _ _ _ _ hc]
  simp

/-- Right trim of a list starting with a non-whitespace character keeps the
head. -/
lemma trimRight_cons_not_ws (c : Char) (r : List Char)
    (hc : c.isWhitespace = false) :
    trimRightChars (c :: r) = c :: trimRightChars r := by
  unfold trimRightChars
  rw [List.reverse_cons, dropWhile_append_not _ _ _ _ hc]
  simp

/-- normalizePhone on the +98 spelling: trim leaves the +98 head, which is
replaced by 0 over the right-trimmed remainder. -/
lemma normalizePhone_plus98 (rest : List Char) :
    normalizePhone (String.mk ('+' :: '9' :: '8' :: rest)) =
      String.mk ('0' :: trimRightChars rest) := by
  have h1 : trimChars ('+' :: '9' :: '8' :: rest) =
      '+' :: '9' :: '8' :: trimRightChars rest := by
    rw [trim_cons_not_ws _ _ (by decide), trimRight_cons_not_ws _ _ (by decide),
      trimRight_cons_not_ws _ _ (by decide)]
  simp [normalizePhone, h1]

/-- normalizePhone on the 0 spelling: trim leaves the 0 head and the +98
branch is not taken. -/
lemma normalizePhone_zero (rest : List Char) :
    normalizePhone (String.mk ('0' :: rest)) =
      String.mk ('0' :: trimRightChars rest) := by
  have h1 : trimChars ('0' :: rest) = '0' :: trimRightChars rest :=
    trim_cons_not_ws _ _ (by decide)
  simp [normalizePhone, h1]

/-! ## Claim C10 — shared phone normalization across requestOtp and
verifyOtp -/

/-- C10: the +98 spelling and the 0 spelling of a phone normalize to the
same string, hence share one otp:<phone> rate-limiter key, and an OTP
requested under either spelling is verifiable under the other. -/
theorem phone_normalization_equiv :
    (∀ rest : List Char,
      normalizePhone (String.mk ('+' :: '9' :: '8' :: rest)) =
        normalizePhone (String.mk ('0' :: rest))) ∧
    (∀ rest : List Char,
      otpKey (String.mk ('+' :: '9' :: '8' :: rest)) =
        otpKey (String.mk ('0' :: rest))) ∧
    (∀ (cfg : AuthConfig) (hash : String → String) (s0 : AuthState)
        (rest : List Char) (code : String) (t1 t2 : Nat) (k1 : String),
      (∀ r ∈ s0.otps,
        r.phone ≠ normalizePhone (String.mk ('+' :: '9' :: '8' :: rest))) →
      (requestOtp cfg hash t1 code s0
        (String.mk ('+' :: '9' :: '8' :: rest))).1 = Except.ok () →
      t2 < t1 + cfg.otpExpMin * 60000 →
      ∃ u : UserRec,
        (verifyOtp hash t2 k1
            (requestOtp cfg hash t1 code s0
              (String.mk ('+' :: '9' :: '8' :: rest))).2
            (String.mk ('0' :: rest)) code).1 =
          Except.ok { user := u, apiKey := k1 }) ∧
    (∀ (cfg : AuthConfig) (hash : String → String) (s0 : AuthState)
        (rest : List Char) (code : String) (t1 t2 : Nat) (k1 : String),
      (∀ r ∈ s0.otps,
        r.phone ≠ normalizePhone (String.mk ('0' :: rest))) →
      (requestOtp cfg hash t1 code s0 (String.mk ('0' :: rest))).1 =
        Except.ok () →
      t2 < t1 + cfg.otpExpMin * 60000 →
      ∃ u : UserRec,
        (verifyOtp hash t2 k1
            (requestOtp cfg hash t1 code s0 (String.mk ('0' :: rest))).2
            (String.mk ('+' :: '9' :: '8' :: rest)) code).1 =
          Except.ok { user := u, apiKey := k1 }) := by
  have hnorm : ∀ rest : List Char,
      normalizePhone (String.mk ('+' :: '9' :: '8' :: rest)) =
        normalizePhone (String.mk ('0' :: rest)) := by
    intro rest
    rw [normalizePhone_plus98, normalizePhone_zero]
  refine ⟨hnorm, ?_, ?_, ?_⟩
  · intro rest
    unfold otpKey
    rw [hnorm]
  · intro cfg hash s0 rest code t1 t2 k1 hfresh hreq ht2
    obtain ⟨u, hu, -, -⟩ := otp_round_trip cfg hash s0
      (String.mk ('+' :: '9' :: '8' :: rest)) (String.mk ('0' :: rest)) code
      t1 t2 0 k1 k1 (hnorm rest).symm hfresh hreq ht2
    exact ⟨u, hu⟩
  · intro cfg hash s0 rest code t1 t2 k1 hfresh hreq ht2
    obtain ⟨u, hu, -, -⟩ := otp_round_trip cfg hash s0
      (String.mk ('0' :: rest)) (String.mk ('+' :: '9' :: '8' :: rest)) code
      t1 t2 0 k1 k1 (hnorm rest) hfresh hreq ht2
    exact ⟨u, hu⟩

/-- Witness for phone_normalization_equiv at the digits 912: both
spellings normalize and key identically, and the cross-spelling round trip
succeeds in both directions. -/
theorem phone_normalization_equiv_witness :
    normalizePhone (String.mk ('+' :: '9' :: '8' :: ['9', '1', '2'])) =
      normalizePhone (String.mk ('0' :: ['9', '1', '2'])) ∧
    otpKey (String.mk ('+' :: '9' :: '8' :: ['9', '1', '2'])) =
      otpKey (String.mk ('0' :: ['9', '1', '2'])) ∧
    (∃ u : UserRec,
      (verifyOtp id 1000 "K1"
          (requestOtp cfgSample id 0 "12345" emptyAuthState
            (String.mk ('+' :: '9' :: '8' :: ['9', '1', '2']))).2
          (String.mk ('0' :: ['9', '1', '2'])) "12345").1 =
        Except.ok { user := u, apiKey := "K1" }) ∧
    (∃ u : UserRec,
      (verifyOtp id 1000 "K1"
          (requestOtp cfgSample id 0 "12345" emptyAuthState
            (String.mk ('0' :: ['9', '1', '2']))).2
          (String.mk ('+' :: '9' :: '8' :: ['9', '1', '2'])) "12345").1 =
        Except.ok { user := u, apiKey := "K1" }) :=
  ⟨phone_normalization_equiv.1 ['9', '1', '2'],
   phone_normalization_equiv.2.1 ['9', '1', '2'],
   phone_normalization_equiv.2.2.1 cfgSample id emptyAuthState ['9', '1', '2']
     "12345" 0 1000 "K1" (by simp [emptyAuthState]) rfl (by decide),
   phone_normalization_equiv.2.2.2 cfgSample id emptyAuthState ['9', '1', '2']
     "12345" 0 1000 "K1" (by simp [emptyAuthState]) rfl (by decide)⟩

end DastyareSub
